import Mathlib

/-!
# Verification of the CS-330 `SceneManager` component

A shallow embedding, in Lean 4, of `Source/SceneManager.cpp`: the bounded
texture registry (16 slots), the material registry, the shader-uniform
setters and the model-transform composition.  Stateful C++ methods become
explicit state-passing functions; the OpenGL calls a method issues are
recorded as an explicit trace; calling a method through the
`m_pShaderManager` pointer while it is `NULL` is modelled as an
`Except.error` outcome.

Machine floats are modelled as exact rationals (for the registry and
uniform payloads, where no arithmetic happens) and as reals (for the
transform matrices).  `GLuint` texture names are modelled as integers
allocated by a monotone counter starting at 1, matching the fact that
`glGenTextures` never returns 0.
-/

namespace SceneMgr

/-- One entry of the `m_textureIDs` array: `{std::string tag; GLuint ID;}`.
The `ID` field is modelled as an integer; the constructor stores `-1` in it
(the literal written by `SceneManager::SceneManager`). -/
structure TextureSlot where
  tag : String
  ID : Int
deriving DecidableEq, Repr

/-- A 3-component float vector as used for material colors, modelled with
exact rationals (the registry only stores and copies them). -/
structure Vec3Q where
  x : ℚ
  y : ℚ
  z : ℚ
deriving DecidableEq, Repr

/-- `OBJECT_MATERIAL`: `{vec3 diffuseColor; vec3 specularColor; float
shininess; std::string tag;}` as used by `SceneManager.cpp`. -/
structure ObjectMaterial where
  diffuseColor : Vec3Q
  specularColor : Vec3Q
  shininess : ℚ
  tag : String
deriving DecidableEq, Repr

/-- The member state of a `SceneManager` object.  `m_textureIDs` is a 16
element C array; we model the addressable memory around it as a total map
`Nat → TextureSlot` so that an out-of-bounds store (the missing capacity
check in `CreateGLTexture`) is representable.  `pShaderNull` records
whether `m_pShaderManager == NULL`. -/
structure SceneManagerState where
  pShaderNull : Bool
  textureIDs : Nat → TextureSlot
  loadedTextures : Nat
  objectMaterials : List ObjectMaterial

/-- An OpenGL call issued by the scene manager, as far as texture-object
lifetime and binding are concerned. -/
inductive GLCall where
  | genTextures (name : Int)
  | bindTexture (name : Int)
  | texParameteri (pname : String) (param : String)
  | texImage2D (channels : Int)
  | generateMipmap
  | activeTexture (unit : Nat)
  | deleteTextures (name : Int)
deriving DecidableEq, Repr

/-- The OpenGL texture-name allocator plus the trace of calls issued.
`glGenTextures` hands out `nextName` (starting at 1; 0 is never a generated
name) and increments it. -/
structure GLState where
  nextName : Nat
  calls : List GLCall

/-- The result of `stbi_load`: image dimensions and channel count.  A
failed decode is `Option.none` at the call site. -/
structure DecodeResult where
  width : Int
  height : Int
  channels : Int
deriving DecidableEq, Repr

/-- The constructor `SceneManager::SceneManager`: sets every one of the 16
array entries to `{tag = "/0", ID = -1}` and `m_loadedTextures` to 0.
Memory beyond the array (`mem`) is whatever it was. -/
def initSceneManager (pShaderNull : Bool) (mem : Nat → TextureSlot) : SceneManagerState :=
  { pShaderNull := pShaderNull
    textureIDs := fun i => if i < 16 then ⟨"/0", -1⟩ else mem i
    loadedTextures := 0
    objectMaterials := [] }

/-- The fresh GL state: no calls yet, first generated texture name is 1. -/
def initGLState : GLState := { nextName := 1, calls := [] }

/-- `SceneManager::CreateGLTexture`, with the `stbi_load` outcome passed in
as `decode`.  Mirrors the source line by line: on decode failure return
`false` with nothing touched; otherwise generate and bind a texture name,
set the four texture parameters, then upload the image if `channels` is 3
or 4 — any other channel count returns `false` right there (registry
untouched); on the 3/4 path generate mipmaps, unbind, store `{ID, tag}` at
index `m_loadedTextures` (no capacity check) and increment the count. -/
def createGLTexture (s : SceneManagerState) (gl : GLState)
    (decode : Option DecodeResult) (tag : String) :
    Bool × SceneManagerState × GLState :=
  match decode with
  | none => (false, s, gl)
  | some image =>
    let textureID : Int := Int.ofNat gl.nextName
    let gl1 : GLState :=
      { nextName := gl.nextName + 1
        calls := gl.calls ++
          [GLCall.genTextures textureID, GLCall.bindTexture textureID,
           GLCall.texParameteri "GL_TEXTURE_WRAP_S" "GL_REPEAT",
           GLCall.texParameteri "GL_TEXTURE_WRAP_T" "GL_REPEAT",
           GLCall.texParameteri "GL_TEXTURE_MIN_FILTER" "GL_LINEAR",
           GLCall.texParameteri "GL_TEXTURE_MAG_FILTER" "GL_LINEAR"] }
    if image.channels = 3 ∨ image.channels = 4 then
      let gl2 : GLState :=
        { gl1 with calls := gl1.calls ++
            [GLCall.texImage2D image.channels, GLCall.generateMipmap,
             GLCall.bindTexture 0] }
      let s' : SceneManagerState :=
        { s with
          textureIDs := Function.update s.textureIDs s.loadedTextures ⟨tag, textureID⟩
          loadedTextures := s.loadedTextures + 1 }
      (true, s', gl2)
    else
      (false, s, gl1)

/-- The `while` loop of `SceneManager::FindTextureID`: scan indices from
`index` up, stop at the first slot whose `tag` matches, return its `ID`;
return the initial `-1` when the scan exhausts `m_loadedTextures`. -/
def findTextureIDLoop (s : SceneManagerState) (tag : String) (index : Nat) : Int :=
  if index < s.loadedTextures then
    if (s.textureIDs index).tag = tag then (s.textureIDs index).ID
    else findTextureIDLoop s tag (index + 1)
  else -1
termination_by s.loadedTextures - index

/-- `SceneManager::FindTextureID`. -/
def findTextureID (s : SceneManagerState) (tag : String) : Int :=
  findTextureIDLoop s tag 0

/-- The `while` loop of `SceneManager::FindTextureSlot`: same scan, but the
result is the matching slot index (as an `int`), `-1` when absent. -/
def findTextureSlotLoop (s : SceneManagerState) (tag : String) (index : Nat) : Int :=
  if index < s.loadedTextures then
    if (s.textureIDs index).tag = tag then Int.ofNat index
    else findTextureSlotLoop s tag (index + 1)
  else -1
termination_by s.loadedTextures - index

/-- `SceneManager::FindTextureSlot`. -/
def findTextureSlot (s : SceneManagerState) (tag : String) : Int :=
  findTextureSlotLoop s tag 0

/-- The `while` loop of `SceneManager::FindMaterial`: scan the material
vector from `index`, and at the first tag match copy `diffuseColor`,
`specularColor` and `shininess` (not `tag`) into the output parameter
`material`; when no index matches, `material` is returned as it came in. -/
def findMaterialLoop (ms : List ObjectMaterial) (tag : String) (index : Nat)
    (material : ObjectMaterial) : ObjectMaterial :=
  if h : index < ms.length then
    let m := ms.get ⟨index, h⟩
    if m.tag = tag then
      { material with
        diffuseColor := m.diffuseColor
        specularColor := m.specularColor
        shininess := m.shininess }
    else findMaterialLoop ms tag (index + 1) material
  else material
termination_by ms.length - index

/-- `SceneManager::FindMaterial`: returns `false` only when the material
list is empty; otherwise it runs the scan loop and returns `true`
regardless of whether any tag matched.  The second component is the
`OBJECT_MATERIAL&` output parameter after the call. -/
def findMaterial (ms : List ObjectMaterial) (tag : String)
    (material : ObjectMaterial) : Bool × ObjectMaterial :=
  if ms.length = 0 then (false, material)
  else (true, findMaterialLoop ms tag 0 material)

/-- `SceneManager::DefineObjectMaterials`: pushes the gold ("metal"), wood
and glass materials, in that order. -/
def defineObjectMaterials (ms : List ObjectMaterial) : List ObjectMaterial :=
  ms ++
    [{ diffuseColor := ⟨4/10, 4/10, 4/10⟩, specularColor := ⟨7/10, 7/10, 6/10⟩
       shininess := 60, tag := "metal" },
     { diffuseColor := ⟨2/10, 2/10, 3/10⟩, specularColor := ⟨0, 0, 0⟩
       shininess := 1/10, tag := "wood" },
     { diffuseColor := ⟨7/10, 7/10, 7/10⟩, specularColor := ⟨1, 1, 1⟩
       shininess := 90, tag := "glass" }]

/-- The `for` loop of `SceneManager::BindGLTextures`: for each `i` below
`m_loadedTextures`, issue `glActiveTexture(GL_TEXTURE0 + i)` followed by
`glBindTexture(GL_TEXTURE_2D, m_textureIDs[i].ID)`.  No member is written. -/
def bindGLTexturesLoop (s : SceneManagerState) (index : Nat) : List GLCall :=
  if index < s.loadedTextures then
    GLCall.activeTexture index :: GLCall.bindTexture (s.textureIDs index).ID ::
      bindGLTexturesLoop s (index + 1)
  else []
termination_by s.loadedTextures - index

/-- `SceneManager::BindGLTextures`: the state is not modified; the value is
the list of GL calls issued. -/
def bindGLTextures (s : SceneManagerState) : SceneManagerState × List GLCall :=
  (s, bindGLTexturesLoop s 0)

/-- The `for` loop of `SceneManager::DestroyGLTextures` as written in the
source: for each `i` below `m_loadedTextures` it calls
`glGenTextures(1, &m_textureIDs[i].ID)` — generating a fresh texture name
into the slot — and never calls `glDeleteTextures`. -/
def destroyGLTexturesLoop (s : SceneManagerState) (gl : GLState) (index : Nat) :
    SceneManagerState × GLState :=
  if index < s.loadedTextures then
    let newName : Int := Int.ofNat gl.nextName
    let s' : SceneManagerState :=
      { s with textureIDs :=
          Function.update s.textureIDs index ⟨(s.textureIDs index).tag, newName⟩ }
    let gl' : GLState :=
      { nextName := gl.nextName + 1
        calls := gl.calls ++ [GLCall.genTextures newName] }
    destroyGLTexturesLoop s' gl' (index + 1)
  else (s, gl)
termination_by s.loadedTextures - index

/-- `SceneManager::DestroyGLTextures`. -/
def destroyGLTextures (s : SceneManagerState) (gl : GLState) :
    SceneManagerState × GLState :=
  destroyGLTexturesLoop s gl 0

/-! ### Shader uniform setters

A call `m_pShaderManager->setXValue(...)` is modelled as a `ShaderWrite`
record; executing a method yields `Except.error ()` exactly when the
method calls through `m_pShaderManager` while it is `NULL`, and otherwise
`Except.ok` with the ordered list of uniform writes performed. -/

/-- The uniform-name globals from the anonymous namespace of
`SceneManager.cpp`. -/
def gModelName : String := "model"

def gColorValueName : String := "objectColor"

def gTextureValueName : String := "objectTexture"

def gUseTextureName : String := "bUseTexture"

def gUseLightingName : String := "bUseLighting"

/-- One shader-uniform write, tagged by the setter used. -/
inductive ShaderWrite where
  | setInt (name : String) (value : Int)
  | setVec4 (name : String) (value : ℚ × ℚ × ℚ × ℚ)
  | setSampler2D (name : String) (value : Int)
  | setVec2 (name : String) (value : ℚ × ℚ)
  | setVec3 (name : String) (value : Vec3Q)
  | setFloat (name : String) (value : ℚ)
deriving DecidableEq, Repr

/-- `SceneManager::SetShaderColor`: builds the RGBA vector and, only when
`m_pShaderManager` is non-null, writes `bUseTexture := false` (int 0) and
the color uniform. -/
def setShaderColor (s : SceneManagerState) (red green blue alpha : ℚ) :
    Except Unit (List ShaderWrite) :=
  let currentColor : ℚ × ℚ × ℚ × ℚ := (red, green, blue, alpha)
  if s.pShaderNull = false then
    Except.ok [ShaderWrite.setInt gUseTextureName 0,
               ShaderWrite.setVec4 gColorValueName currentColor]
  else
    Except.ok []

/-- `SceneManager::SetShaderTexture`: when `m_pShaderManager` is non-null,
writes `bUseTexture := true` (int 1), looks the tag up with
`FindTextureSlot`, and writes the result — found slot or the `-1`
sentinel — into the sampler uniform. -/
def setShaderTexture (s : SceneManagerState) (textureTag : String) :
    Except Unit (List ShaderWrite) :=
  if s.pShaderNull = false then
    let textureID : Int := findTextureSlot s textureTag
    Except.ok [ShaderWrite.setInt gUseTextureName 1,
               ShaderWrite.setSampler2D gTextureValueName textureID]
  else
    Except.ok []

/-- `SceneManager::SetTextureUVScale`: guarded write of the `UVscale`
vec2 uniform. -/
def setTextureUVScale (s : SceneManagerState) (u v : ℚ) :
    Except Unit (List ShaderWrite) :=
  if s.pShaderNull = false then
    Except.ok [ShaderWrite.setVec2 "UVscale" (u, v)]
  else
    Except.ok []

/-- `SceneManager::SetShaderMaterial`: when at least one material is
defined, runs `FindMaterial` into a local `OBJECT_MATERIAL` (passed in as
`material0`, standing for the uninitialised local) and, when it reported
success, writes the three material uniforms through `m_pShaderManager`
with **no null check** — calling through a null pointer is the
`Except.error` outcome. -/
def setShaderMaterial (s : SceneManagerState) (materialTag : String)
    (material0 : ObjectMaterial) : Except Unit (List ShaderWrite) :=
  if 0 < s.objectMaterials.length then
    let r := findMaterial s.objectMaterials materialTag material0
    if r.1 = true then
      if s.pShaderNull then Except.error ()
      else
        Except.ok [ShaderWrite.setVec3 "material.diffuseColor" r.2.diffuseColor,
                   ShaderWrite.setVec3 "material.specularColor" r.2.specularColor,
                   ShaderWrite.setFloat "material.shininess" r.2.shininess]
    else
      Except.ok []
  else
    Except.ok []

end SceneMgr

/-! ### The model transform (`SetTransformations`)

`SetTransformations` composes `glm` matrices over machine floats; we model
them over `ℝ`.  `glm` stores matrices column-major (`M[col][row]`); the
embedding uses the mathematical convention `M row col`, under which `glm`
matrix multiplication is ordinary matrix multiplication. -/

namespace SceneMgr

/-- A 3-component real vector (transform parameters). -/
structure Vec3R where
  x : ℝ
  y : ℝ
  z : ℝ

/-- 4×4 real matrices, the model of `glm::mat4`. -/
abbrev GMat4 := Matrix (Fin 4) (Fin 4) ℝ

noncomputable section

/-- `glm::radians`: multiply degrees by π/180. -/
def glmRadians (degrees : ℝ) : ℝ := degrees * (Real.pi / 180)

/-- `glm::normalize` on a 3-vector: scale by the inverse square root of
the dot product with itself. -/
def glmNormalize (v : Vec3R) : Vec3R :=
  let k := 1 / Real.sqrt (v.x * v.x + v.y * v.y + v.z * v.z)
  ⟨v.x * k, v.y * k, v.z * k⟩

/-- `glm::rotate(angle, v)` (= `glm::rotate(mat4(1), angle, v)`): the
Rodrigues rotation matrix about the normalised axis, written here entry by
entry as `glm` computes `Rotate[col][row]`, transcribed to `(row, col)`
convention, with identity last row and column. -/
def glmRotate (angle : ℝ) (v : Vec3R) : GMat4 :=
  let c := Real.cos angle
  let s := Real.sin angle
  let axis := glmNormalize v
  let t0 := (1 - c) * axis.x
  let t1 := (1 - c) * axis.y
  let t2 := (1 - c) * axis.z
  !![c + t0 * axis.x,        t1 * axis.x - s * axis.z, t2 * axis.x + s * axis.y, 0;
     t0 * axis.y + s * axis.z, c + t1 * axis.y,        t2 * axis.y - s * axis.x, 0;
     t0 * axis.z - s * axis.y, t1 * axis.z + s * axis.x, c + t2 * axis.z,        0;
     0,                       0,                        0,                       1]

/-- `glm::scale(v)`: the diagonal scale matrix. -/
def glmScale (v : Vec3R) : GMat4 :=
  !![v.x, 0,   0,   0;
     0,   v.y, 0,   0;
     0,   0,   v.z, 0;
     0,   0,   0,   1]

/-- `glm::translate(v)`: identity with the translation in the last
column. -/
def glmTranslate (v : Vec3R) : GMat4 :=
  !![1, 0, 0, v.x;
     0, 1, 0, v.y;
     0, 0, 1, v.z;
     0, 0, 0, 1]

/-- The matrix `SceneManager::SetTransformations` computes:
`modelView = translation * rotationZ * rotationY * rotationX * scale`,
each rotation built by `glm::rotate` about a unit coordinate axis at the
degree argument converted by `glm::radians`. -/
def setTransformationsMatrix (scaleXYZ : Vec3R)
    (xRotationDegrees yRotationDegrees zRotationDegrees : ℝ)
    (positionXYZ : Vec3R) : GMat4 :=
  let scale := glmScale scaleXYZ
  let rotationX := glmRotate (glmRadians xRotationDegrees) ⟨1, 0, 0⟩
  let rotationY := glmRotate (glmRadians yRotationDegrees) ⟨0, 1, 0⟩
  let rotationZ := glmRotate (glmRadians zRotationDegrees) ⟨0, 0, 1⟩
  let translation := glmTranslate positionXYZ
  translation * rotationZ * rotationY * rotationX * scale

/-- `SceneManager::SetTransformations`: computes `modelView` and uploads
it to the `model` uniform only when `m_pShaderManager` is non-null
(`some` = the uploaded matrix, `none` = no write performed). -/
def setTransformations (s : SceneManagerState) (scaleXYZ : Vec3R)
    (xRotationDegrees yRotationDegrees zRotationDegrees : ℝ)
    (positionXYZ : Vec3R) : Option GMat4 :=
  if s.pShaderNull = false then
    some (setTransformationsMatrix scaleXYZ
      xRotationDegrees yRotationDegrees zRotationDegrees positionXYZ)
  else
    none

/-! Spec-side matrices, written from the specification's words (`T(t) ·
Rz(rz) · Ry(ry) · Rx(rx) · S(s)`, each angle in degrees converted to
radians): the standard axis rotation, scale and translation matrices. -/

/-- Spec: degrees to radians. -/
def specDegToRad (d : ℝ) : ℝ := d * Real.pi / 180

/-- Spec: the standard rotation about the x axis. -/
def specRotX (θ : ℝ) : GMat4 :=
  !![1, 0,          0,           0;
     0, Real.cos θ, -Real.sin θ, 0;
     0, Real.sin θ, Real.cos θ,  0;
     0, 0,          0,           1]

/-- Spec: the standard rotation about the y axis. -/
def specRotY (θ : ℝ) : GMat4 :=
  !![Real.cos θ,  0, Real.sin θ, 0;
     0,           1, 0,          0;
     -Real.sin θ, 0, Real.cos θ, 0;
     0,           0, 0,          1]

/-- Spec: the standard rotation about the z axis. -/
def specRotZ (θ : ℝ) : GMat4 :=
  !![Real.cos θ, -Real.sin θ, 0, 0;
     Real.sin θ, Real.cos θ,  0, 0;
     0,          0,           1, 0;
     0,          0,           0, 1]

/-- Spec: the scale matrix `S(s)`. -/
def specScale (v : Vec3R) : GMat4 :=
  !![v.x, 0,   0,   0;
     0,   v.y, 0,   0;
     0,   0,   v.z, 0;
     0,   0,   0,   1]

/-- Spec: the translation matrix `T(t)`. -/
def specTranslate (v : Vec3R) : GMat4 :=
  !![1, 0, 0, v.x;
     0, 1, 0, v.y;
     0, 0, 1, v.z;
     0, 0, 0, 1]

end

theorem glmNormalize_unitX : glmNormalize ⟨1, 0, 0⟩ = ⟨1, 0, 0⟩ := by
  simp [glmNormalize]

theorem glmNormalize_unitY : glmNormalize ⟨0, 1, 0⟩ = ⟨0, 1, 0⟩ := by
  simp [glmNormalize]

theorem glmNormalize_unitZ : glmNormalize ⟨0, 0, 1⟩ = ⟨0, 0, 1⟩ := by
  simp [glmNormalize]

theorem glmRotate_unitX (θ : ℝ) : glmRotate θ ⟨1, 0, 0⟩ = specRotX θ := by
  unfold glmRotate
  rw [glmNormalize_unitX]
  ext i j
  fin_cases i <;> fin_cases j <;> simp [specRotX]

theorem glmRotate_unitY (θ : ℝ) : glmRotate θ ⟨0, 1, 0⟩ = specRotY θ := by
  unfold glmRotate
  rw [glmNormalize_unitY]
  ext i j
  fin_cases i <;> fin_cases j <;> simp [specRotY]

theorem glmRotate_unitZ (θ : ℝ) : glmRotate θ ⟨0, 0, 1⟩ = specRotZ θ := by
  unfold glmRotate
  rw [glmNormalize_unitZ]
  ext i j
  fin_cases i <;> fin_cases j <;> simp [specRotZ]

theorem glmRadians_eq_specDegToRad (d : ℝ) : glmRadians d = specDegToRad d := by
  unfold glmRadians specDegToRad; ring

theorem glmScale_eq_specScale (v : Vec3R) : glmScale v = specScale v := rfl

theorem glmTranslate_eq_specTranslate (v : Vec3R) : glmTranslate v = specTranslate v := rfl

theorem setTransformationsMatrix_eq (sc : Vec3R) (rx ry rz : ℝ) (t : Vec3R) :
    setTransformationsMatrix sc rx ry rz t =
      specTranslate t * specRotZ (specDegToRad rz) * specRotY (specDegToRad ry) *
        specRotX (specDegToRad rx) * specScale sc := by
  unfold setTransformationsMatrix
  rw [glmRotate_unitX, glmRotate_unitY, glmRotate_unitZ,
    glmRadians_eq_specDegToRad, glmRadians_eq_specDegToRad, glmRadians_eq_specDegToRad,
    glmScale_eq_specScale, glmTranslate_eq_specTranslate]

end SceneMgr

/-! ## Example states used by witnesses and counterexamples -/

namespace SceneMgr

/-- Uninteresting surrounding memory for the texture array. -/
def emptyMem : Nat → TextureSlot := fun _ => ⟨"/0", -1⟩

/-- A freshly constructed manager with a non-null shader pointer. -/
def sampleNonNull : SceneManagerState := initSceneManager false emptyMem

/-- The material list built by `DefineObjectMaterials` on the fresh
(empty) vector. -/
def sceneMaterials : List ObjectMaterial := defineObjectMaterials []

/-- The stack local `OBJECT_MATERIAL material;` of `SetShaderMaterial`,
modelled with an arbitrary concrete content. -/
def localMaterial : ObjectMaterial :=
  { diffuseColor := ⟨0, 0, 0⟩, specularColor := ⟨0, 0, 0⟩, shininess := 0, tag := "" }

/-- A manager whose 16-slot texture array is completely full. -/
def full16 : SceneManagerState :=
  { pShaderNull := false
    textureIDs := fun i => if i < 16 then ⟨"tex" ++ toString i, Int.ofNat (i + 1)⟩
                           else ⟨"/0", -1⟩
    loadedTextures := 16
    objectMaterials := [] }

/-- The GL name allocator after the 16 registrations of `full16`. -/
def glAfter16 : GLState := { nextName := 17, calls := [] }

end SceneMgr

/-! ## Claims -/

namespace SceneMgr

/-- When no element of the material list carries the requested tag, the
scan loop of `FindMaterial` leaves the output parameter untouched. -/
theorem findMaterialLoop_no_match (ms : List ObjectMaterial) (tag : String)
    (m : ObjectMaterial) (h : ∀ x ∈ ms, x.tag ≠ tag) (index : Nat) :
    findMaterialLoop ms tag index m = m := by
  rw [findMaterialLoop]
  split
  next hlt =>
    dsimp only
    rw [if_neg (h _ (List.get_mem ms index hlt))]
    exact findMaterialLoop_no_match ms tag m h (index + 1)
  next => rfl
termination_by ms.length - index

/-- **C1** (code_bug evidence): the claim says that for a tag not present
in a non-empty material registry, `FindMaterial` returns failure.  The
code does the opposite: with the three scene materials defined, looking up
the absent tag `"plastic"` returns `true` (success) while copying nothing
into the output parameter. -/
theorem findMaterial_miss_reports_success :
    (findMaterial sceneMaterials "plastic" localMaterial).1 = true ∧
      (findMaterial sceneMaterials "plastic" localMaterial).2 = localMaterial := by
  have hmiss : ∀ x ∈ sceneMaterials, x.tag ≠ "plastic" := by decide
  have hne : sceneMaterials.length = 3 := by decide
  rw [findMaterial, if_neg (by rw [hne]; decide),
    findMaterialLoop_no_match sceneMaterials "plastic" localMaterial hmiss 0]
  exact ⟨rfl, rfl⟩

/-- **C2** (code_bug evidence): the claim says a 17th registration must
fail with a capacity error and not write outside the 16-slot array.  The
code has no capacity check: with all 16 slots occupied, a successful
3-channel decode is registered anyway — the call returns `true`, the slot
count becomes 17, and `{tag, ID}` is stored at index 16, one past the end
of the 16-element array. -/
theorem createGLTexture_seventeenth_writes_out_of_bounds :
    (createGLTexture full16 glAfter16 (some ⟨64, 64, 3⟩) "extra").1 = true ∧
      (createGLTexture full16 glAfter16 (some ⟨64, 64, 3⟩) "extra").2.1.loadedTextures = 17 ∧
      (createGLTexture full16 glAfter16 (some ⟨64, 64, 3⟩) "extra").2.1.textureIDs 16 =
        ⟨"extra", 17⟩ := by
  refine ⟨by norm_num [createGLTexture], by norm_num [createGLTexture, full16], ?_⟩
  norm_num [createGLTexture, full16, glAfter16, Function.update]

/-- **C3**: whenever the shader manager is non-null, `SetTransformations`
uploads the model matrix `T(t) · Rz(rz) · Ry(ry) · Rx(rx) · S(s)`, with
each rotation angle converted from degrees to radians. -/
theorem setTransformations_uploads_T_Rz_Ry_Rx_S (s : SceneManagerState)
    (sc : Vec3R) (rx ry rz : ℝ) (t : Vec3R) (h : s.pShaderNull = false) :
    setTransformations s sc rx ry rz t =
      some (specTranslate t * specRotZ (specDegToRad rz) * specRotY (specDegToRad ry) *
        specRotX (specDegToRad rx) * specScale sc) := by
  simp [setTransformations, h, setTransformationsMatrix_eq]

/-- Witness for **C3** at the spec's hand-computed case
`s = (2,1,1)`, `angles = (0, 90, 0)`, `t = (1,0,0)`. -/
theorem setTransformations_uploads_T_Rz_Ry_Rx_S_witness :
    setTransformations sampleNonNull ⟨2, 1, 1⟩ 0 90 0 ⟨1, 0, 0⟩ =
      some (specTranslate ⟨1, 0, 0⟩ * specRotZ (specDegToRad 0) * specRotY (specDegToRad 90) *
        specRotX (specDegToRad 0) * specScale ⟨2, 1, 1⟩) :=
  setTransformations_uploads_T_Rz_Ry_Rx_S sampleNonNull ⟨2, 1, 1⟩ 0 90 0 ⟨1, 0, 0⟩ rfl

end SceneMgr

namespace SceneMgr

/-- If no slot from `index` up to `m_loadedTextures` carries the tag, the
`FindTextureID` scan returns the `-1` it was initialised with. -/
theorem findTextureIDLoop_miss (s : SceneManagerState) (tag : String) (index : Nat)
    (h : ∀ i, index ≤ i → i < s.loadedTextures → (s.textureIDs i).tag ≠ tag) :
    findTextureIDLoop s tag index = -1 := by
  rw [findTextureIDLoop]
  split
  next hlt =>
    rw [if_neg (h index le_rfl hlt)]
    exact findTextureIDLoop_miss s tag (index + 1)
      (fun i hi hc => h i (Nat.le_of_succ_le hi) hc)
  next => rfl
termination_by s.loadedTextures - index

/-- Same, for the `FindTextureSlot` scan. -/
theorem findTextureSlotLoop_miss (s : SceneManagerState) (tag : String) (index : Nat)
    (h : ∀ i, index ≤ i → i < s.loadedTextures → (s.textureIDs i).tag ≠ tag) :
    findTextureSlotLoop s tag index = -1 := by
  rw [findTextureSlotLoop]
  split
  next hlt =>
    rw [if_neg (h index le_rfl hlt)]
    exact findTextureSlotLoop_miss s tag (index + 1)
      (fun i hi hc => h i (Nat.le_of_succ_le hi) hc)
  next => rfl
termination_by s.loadedTextures - index

/-- When `i0` is the first matching slot at or after `index`, the
`FindTextureID` scan returns that slot's `ID`. -/
theorem findTextureIDLoop_found (s : SceneManagerState) (tag : String) (i0 : Nat)
    (hi0 : i0 < s.loadedTextures) (hm : (s.textureIDs i0).tag = tag) (index : Nat)
    (hle : index ≤ i0) (hfirst : ∀ j, index ≤ j → j < i0 → (s.textureIDs j).tag ≠ tag) :
    findTextureIDLoop s tag index = (s.textureIDs i0).ID := by
  rw [findTextureIDLoop]
  rw [if_pos (lt_of_le_of_lt hle hi0)]
  by_cases heq : (s.textureIDs index).tag = tag
  · rw [if_pos heq]
    have hix : index = i0 := by
      rcases lt_or_eq_of_le hle with hlt | hEq
      · exact absurd heq (hfirst index le_rfl hlt)
      · exact hEq
    rw [hix]
  · rw [if_neg heq]
    have hlt : index < i0 := lt_of_le_of_ne hle (fun e => heq (e ▸ hm))
    exact findTextureIDLoop_found s tag i0 hi0 hm (index + 1) hlt
      (fun j hj hji => hfirst j (Nat.le_of_succ_le hj) hji)
termination_by i0 - index

/-- When `i0` is the first matching slot at or after `index`, the
`FindTextureSlot` scan returns `i0`. -/
theorem findTextureSlotLoop_found (s : SceneManagerState) (tag : String) (i0 : Nat)
    (hi0 : i0 < s.loadedTextures) (hm : (s.textureIDs i0).tag = tag) (index : Nat)
    (hle : index ≤ i0) (hfirst : ∀ j, index ≤ j → j < i0 → (s.textureIDs j).tag ≠ tag) :
    findTextureSlotLoop s tag index = Int.ofNat i0 := by
  rw [findTextureSlotLoop]
  rw [if_pos (lt_of_le_of_lt hle hi0)]
  by_cases heq : (s.textureIDs index).tag = tag
  · rw [if_pos heq]
    have hix : index = i0 := by
      rcases lt_or_eq_of_le hle with hlt | hEq
      · exact absurd heq (hfirst index le_rfl hlt)
      · exact hEq
    rw [hix]
  · rw [if_neg heq]
    have hlt : index < i0 := lt_of_le_of_ne hle (fun e => heq (e ▸ hm))
    exact findTextureSlotLoop_found s tag i0 hi0 hm (index + 1) hlt
      (fun j hj hji => hfirst j (Nat.le_of_succ_le hj) hji)
termination_by i0 - index

/-- **C4**: for a tag absent from the registered slots, both lookups
return the `-1` sentinel (never a stale or zero handle); for the first
slot `i0` carrying the tag (linear scan from index 0), `FindTextureID`
returns that slot's handle and `FindTextureSlot` returns `i0`. -/
theorem findTexture_lookup_spec (s : SceneManagerState) (tag : String) :
    ((∀ i, i < s.loadedTextures → (s.textureIDs i).tag ≠ tag) →
        findTextureID s tag = -1 ∧ findTextureSlot s tag = -1) ∧
    (∀ i0, i0 < s.loadedTextures → (s.textureIDs i0).tag = tag →
        (∀ j, j < i0 → (s.textureIDs j).tag ≠ tag) →
        findTextureID s tag = (s.textureIDs i0).ID ∧
          findTextureSlot s tag = Int.ofNat i0) := by
  constructor
  · intro h
    exact ⟨findTextureIDLoop_miss s tag 0 (fun i _ hc => h i hc),
           findTextureSlotLoop_miss s tag 0 (fun i _ hc => h i hc)⟩
  · intro i0 hi0 hm hfirst
    exact ⟨findTextureIDLoop_found s tag i0 hi0 hm 0 (Nat.zero_le _)
             (fun j _ hji => hfirst j hji),
           findTextureSlotLoop_found s tag i0 hi0 hm 0 (Nat.zero_le _)
             (fun j _ hji => hfirst j hji)⟩

/-- A registry holding two textures, `"A"` with handle 5 in slot 0 and
`"B"` with handle 9 in slot 1. -/
def twoTexState : SceneManagerState :=
  { pShaderNull := false
    textureIDs := fun i => if i = 0 then ⟨"A", 5⟩ else if i = 1 then ⟨"B", 9⟩
                           else ⟨"/0", -1⟩
    loadedTextures := 2
    objectMaterials := [] }

/-- Witness for **C4**: on `twoTexState`, the absent tag `"zzz"` yields the
sentinel from both lookups, and the tag `"B"` yields handle 9 and slot 1. -/
theorem findTexture_lookup_spec_witness :
    (findTextureID twoTexState "zzz" = -1 ∧ findTextureSlot twoTexState "zzz" = -1) ∧
      (findTextureID twoTexState "B" = 9 ∧ findTextureSlot twoTexState "B" = 1) := by
  refine ⟨(findTexture_lookup_spec twoTexState "zzz").1 (by decide), ?_⟩
  have h := (findTexture_lookup_spec twoTexState "B").2 1 (by decide) (by decide) (by decide)
  simpa [twoTexState] using h

/-- **C5**: whenever `CreateGLTexture` is handed a failed decode, or a
decode whose channel count is neither 3 nor 4, it returns `false` and the
texture registry (slot array and count, and the rest of the manager state)
is exactly what it was before the call. -/
theorem createGLTexture_failure_leaves_registry (s : SceneManagerState) (gl : GLState)
    (decode : Option DecodeResult) (tag : String)
    (h : decode = none ∨
      ∃ img, decode = some img ∧ img.channels ≠ 3 ∧ img.channels ≠ 4) :
    (createGLTexture s gl decode tag).1 = false ∧
      (createGLTexture s gl decode tag).2.1 = s := by
  rcases h with rfl | ⟨img, rfl, h3, h4⟩
  · exact ⟨rfl, rfl⟩
  · rw [createGLTexture]
    dsimp only
    rw [if_neg (by simp [h3, h4])]
    exact ⟨rfl, rfl⟩

/-- Witness for **C5**: a two-channel decode on the fresh manager fails
and leaves the state untouched. -/
theorem createGLTexture_failure_leaves_registry_witness :
    (createGLTexture sampleNonNull initGLState (some ⟨8, 8, 2⟩) "gray").1 = false ∧
      (createGLTexture sampleNonNull initGLState (some ⟨8, 8, 2⟩) "gray").2.1 =
        sampleNonNull :=
  createGLTexture_failure_leaves_registry sampleNonNull initGLState (some ⟨8, 8, 2⟩) "gray"
    (Or.inr ⟨⟨8, 8, 2⟩, rfl, by decide, by decide⟩)

end SceneMgr

namespace SceneMgr

/-! ### C6: behaviour of `SetShaderTexture` on an unregistered tag -/

/-- The C6 claim rendered over the embedding: on a lookup miss the call
must not crash and the texture upload must be "skipped or a default
substituted", i.e. any sampler-slot value actually uploaded is a valid
registered slot (vacuously true when no sampler write happens at all). -/
def shaderTextureMissTolerated (s : SceneManagerState) (tag : String) : Prop :=
  match setShaderTexture s tag with
  | Except.error _ => False
  | Except.ok ws =>
      ∀ v, ShaderWrite.setSampler2D gTextureValueName v ∈ ws →
        0 ≤ v ∧ v < Int.ofNat s.loadedTextures

/-- **C6 counterexample**: on the fresh manager (no textures registered,
shader non-null) and the unregistered tag `"foo"`, `SetShaderTexture` does
not skip the upload: it writes the `-1` sentinel into the sampler uniform
(with `bUseTexture` left enabled), falsifying the claim. -/
theorem setShaderTexture_miss_counterexample :
    ¬ shaderTextureMissTolerated sampleNonNull "foo" := by
  have hok : setShaderTexture sampleNonNull "foo" =
      Except.ok [ShaderWrite.setInt gUseTextureName 1,
                 ShaderWrite.setSampler2D gTextureValueName (-1)] := by
    have hslot : findTextureSlot sampleNonNull "foo" = -1 := by
      rw [findTextureSlot, findTextureSlotLoop]
      rfl
    rw [setShaderTexture]
    simp [hslot, show sampleNonNull.pShaderNull = false from rfl]
  intro hcl
  unfold shaderTextureMissTolerated at hcl
  rw [hok] at hcl
  have h := hcl (-1) (by simp)
  exact absurd h.1 (by decide)

/-- **C6 amended**: on an unregistered tag (shader non-null) the call does
not crash and the draw can still proceed, but texturing is not skipped:
`bUseTexture` is set to true and the `-1` not-found sentinel is uploaded
as the sampler slot, instead of the upload being skipped or a default
substituted. -/
theorem setShaderTexture_miss_behavior (s : SceneManagerState) (tag : String)
    (hp : s.pShaderNull = false)
    (hmiss : ∀ i, i < s.loadedTextures → (s.textureIDs i).tag ≠ tag) :
    setShaderTexture s tag =
      Except.ok [ShaderWrite.setInt gUseTextureName 1,
                 ShaderWrite.setSampler2D gTextureValueName (-1)] := by
  have hslot : findTextureSlot s tag = -1 :=
    findTextureSlotLoop_miss s tag 0 (fun i _ hc => hmiss i hc)
  rw [setShaderTexture]
  simp [hp, hslot]

/-- Witness for the amended **C6** on the fresh manager and tag `"foo"`. -/
theorem setShaderTexture_miss_behavior_witness :
    setShaderTexture sampleNonNull "foo" =
      Except.ok [ShaderWrite.setInt gUseTextureName 1,
                 ShaderWrite.setSampler2D gTextureValueName (-1)] :=
  setShaderTexture_miss_behavior sampleNonNull "foo" rfl
    (by intro i hi; simp [sampleNonNull, initSceneManager] at hi)

/-! ### C7: `DestroyGLTextures` never deletes anything -/

/-- A registry holding one registered texture, tag `"A"`, handle 1. -/
def oneTexState : SceneManagerState :=
  { pShaderNull := false
    textureIDs := fun i => if i = 0 then ⟨"A", 1⟩ else ⟨"/0", -1⟩
    loadedTextures := 1
    objectMaterials := [] }

/-- The GL allocator after that one registration, with an empty trace. -/
def glAfterOne : GLState := { nextName := 2, calls := [] }

/-- **C7** (code_bug evidence): with one registered texture (handle 1),
`DestroyGLTextures` — the whole teardown the destructor performs on GL
textures — issues exactly one `glGenTextures` call and no
`glDeleteTextures` call at all: the registered handle 1 is never
released, and the slot's ID is overwritten with the freshly generated
name 2. -/
theorem destroyGLTextures_generates_instead_of_deleting :
    (destroyGLTextures oneTexState glAfterOne).2.calls = [GLCall.genTextures 2] ∧
      ((destroyGLTextures oneTexState glAfterOne).1.textureIDs 0).ID = 2 := by
  have hrun : destroyGLTextures oneTexState glAfterOne =
      ({ oneTexState with
          textureIDs := Function.update oneTexState.textureIDs 0 ⟨"A", 2⟩ },
       { nextName := 3, calls := [GLCall.genTextures 2] }) := by
    rw [destroyGLTextures, destroyGLTexturesLoop]
    rw [if_pos (by norm_num [oneTexState])]
    rw [destroyGLTexturesLoop]
    rw [if_neg (by norm_num [oneTexState])]
    simp [oneTexState, glAfterOne]
  rw [hrun]
  exact ⟨rfl, by simp [Function.update]⟩

end SceneMgr

namespace SceneMgr

/-! ### C8: the registry invariant across `CreateGLTexture` sequences -/

/-- Run a sequence of `CreateGLTexture` calls (each given its decode
outcome and tag), threading manager and GL state. -/
def runCreates (s : SceneManagerState) (gl : GLState) :
    List (Option DecodeResult × String) → SceneManagerState × GLState
  | [] => (s, gl)
  | (decode, tag) :: rest =>
    let r := createGLTexture s gl decode tag
    runCreates r.2.1 r.2.2 rest

/-- The C8 claim rendered over the embedding: tags are unique among
populated slots, and a slot of the 16-element array is populated (differs
from the constructor's `{"/0", -1}` fill) exactly when its index is below
the registered count. -/
def registryTagUniqueAndContiguous (s : SceneManagerState) : Prop :=
  (∀ i, i < s.loadedTextures → ∀ j, j < s.loadedTextures → i ≠ j →
    (s.textureIDs i).tag ≠ (s.textureIDs j).tag) ∧
  (∀ i, i < 16 → ((s.textureIDs i ≠ ⟨"/0", -1⟩) ↔ i < s.loadedTextures))

/-- Two successful 3-channel registrations under the same tag `"A"`. -/
def dupTagSeq : List (Option DecodeResult × String) :=
  [(some ⟨4, 4, 3⟩, "A"), (some ⟨4, 4, 3⟩, "A")]

/-- **C8 counterexample**: `CreateGLTexture` never checks the tag, so
registering `"A"` twice from the fresh manager populates slots 0 and 1
with the same tag — the uniqueness half of the claimed invariant fails. -/
theorem registry_invariant_counterexample :
    ¬ registryTagUniqueAndContiguous
        (runCreates (initSceneManager false emptyMem) initGLState dupTagSeq).1 := by
  intro h
  have hs : (runCreates (initSceneManager false emptyMem) initGLState dupTagSeq).1.loadedTextures = 2 := by
    simp [runCreates, dupTagSeq, createGLTexture, initSceneManager, initGLState]
  have h0 : ((runCreates (initSceneManager false emptyMem) initGLState dupTagSeq).1.textureIDs 0).tag = "A" := by
    simp [runCreates, dupTagSeq, createGLTexture, initSceneManager, initGLState,
      Function.update]
  have h1 : ((runCreates (initSceneManager false emptyMem) initGLState dupTagSeq).1.textureIDs 1).tag = "A" := by
    simp [runCreates, dupTagSeq, createGLTexture, initSceneManager, initGLState,
      Function.update]
  exact h.1 0 (by rw [hs]; decide) 1 (by rw [hs]; decide) (by decide)
    (by rw [h0, h1])

/-- The inductive invariant `CreateGLTexture` actually maintains: every
registered slot holds a generated (≥ 1) texture name, every in-array slot
at or above the count still holds the constructor fill, and the GL name
allocator never hands out a name below 1. -/
def goodState (s : SceneManagerState) (gl : GLState) : Prop :=
  (∀ i, i < s.loadedTextures → 1 ≤ (s.textureIDs i).ID) ∧
  (∀ i, s.loadedTextures ≤ i → i < 16 → s.textureIDs i = ⟨"/0", -1⟩) ∧
  1 ≤ gl.nextName

theorem goodState_init (p : Bool) (mem : Nat → TextureSlot) :
    goodState (initSceneManager p mem) initGLState := by
  refine ⟨fun i hi => absurd hi (by simp [initSceneManager]), fun i _ hi16 => ?_, le_rfl⟩
  simp [initSceneManager, hi16]

theorem goodState_step (s : SceneManagerState) (gl : GLState)
    (decode : Option DecodeResult) (tag : String) (h : goodState s gl) :
    goodState (createGLTexture s gl decode tag).2.1 (createGLTexture s gl decode tag).2.2 := by
  obtain ⟨hlow, hhigh, hname⟩ := h
  match decode with
  | none => exact ⟨hlow, hhigh, hname⟩
  | some image =>
    rw [createGLTexture]
    dsimp only
    split
    · refine ⟨?_, ?_, by dsimp only; omega⟩
      · intro i hi
        dsimp only at hi ⊢
        rcases Nat.lt_succ_iff_lt_or_eq.mp hi with hlt | hEq
        · rw [Function.update_noteq (Nat.ne_of_lt hlt)]
          exact hlow i hlt
        · subst hEq
          rw [Function.update_same]
          exact Int.ofNat_le.mpr hname
      · intro i hge hi16
        dsimp only at hge ⊢
        rw [Function.update_noteq (by omega)]
        exact hhigh i (by omega) hi16
    · exact ⟨hlow, hhigh, by dsimp only; omega⟩

theorem goodState_runCreates (seq : List (Option DecodeResult × String)) :
    ∀ (s : SceneManagerState) (gl : GLState), goodState s gl →
      goodState (runCreates s gl seq).1 (runCreates s gl seq).2 := by
  induction seq with
  | nil => intro s gl h; exact h
  | cons p rest ih =>
    intro s gl h
    obtain ⟨decode, tag⟩ := p
    exact ih _ _ (goodState_step s gl decode tag h)

/-- **C8 amended**: the contiguity half of the invariant does hold across
every sequence of `CreateGLTexture` calls from the constructed manager —
an in-array slot is populated exactly when its index is below the count —
but tag uniqueness is not enforced (see the counterexample): duplicate
registrations yield duplicate tags among populated slots. -/
theorem createGLTexture_contiguous_fill (seq : List (Option DecodeResult × String))
    (i : Nat) (hi : i < 16) :
    ((runCreates (initSceneManager false emptyMem) initGLState seq).1.textureIDs i ≠
        ⟨"/0", -1⟩) ↔
      i < (runCreates (initSceneManager false emptyMem) initGLState seq).1.loadedTextures := by
  obtain ⟨hlow, hhigh, -⟩ :=
    goodState_runCreates seq (initSceneManager false emptyMem) initGLState
      (goodState_init false emptyMem)
  constructor
  · intro hpop
    by_contra hge
    exact hpop (hhigh i (Nat.le_of_not_lt hge) hi)
  · intro hlt heq
    have := hlow i hlt
    rw [heq] at this
    exact absurd this (by decide)

/-- Witness for the amended **C8**: after one successful registration from
the fresh manager, slot 0 is populated and slot 5 is not. -/
theorem createGLTexture_contiguous_fill_witness :
    (((runCreates (initSceneManager false emptyMem) initGLState [(some ⟨4, 4, 3⟩, "A")]).1.textureIDs 0 ≠
        ⟨"/0", -1⟩) ↔
      0 < (runCreates (initSceneManager false emptyMem) initGLState [(some ⟨4, 4, 3⟩, "A")]).1.loadedTextures) ∧
    (((runCreates (initSceneManager false emptyMem) initGLState [(some ⟨4, 4, 3⟩, "A")]).1.textureIDs 5 ≠
        ⟨"/0", -1⟩) ↔
      5 < (runCreates (initSceneManager false emptyMem) initGLState [(some ⟨4, 4, 3⟩, "A")]).1.loadedTextures) :=
  ⟨createGLTexture_contiguous_fill [(some ⟨4, 4, 3⟩, "A")] 0 (by decide),
   createGLTexture_contiguous_fill [(some ⟨4, 4, 3⟩, "A")] 5 (by decide)⟩

end SceneMgr

namespace SceneMgr

/-! ### C9: `BindGLTextures` and the unit-to-handle assignment -/

/-- The OpenGL binding state the trace acts on: the currently active
texture unit and, per unit, the texture name bound to it. -/
structure BindState where
  activeUnit : Nat
  bound : Nat → Int

theorem BindState.ext_iff {a b : BindState}
    (h1 : a.activeUnit = b.activeUnit) (h2 : ∀ u, a.bound u = b.bound u) :
    a = b := by
  cases a
  cases b
  simp only at h1
  simp only [BindState.mk.injEq]
  exact ⟨h1, funext h2⟩

/-- The effect of one GL call on the binding state: `glActiveTexture`
selects the unit, `glBindTexture` binds a name to the active unit; other
calls do not touch the binding state. -/
def applyGLCall (b : BindState) : GLCall → BindState
  | GLCall.activeTexture u => { b with activeUnit := u }
  | GLCall.bindTexture n => { b with bound := Function.update b.bound b.activeUnit n }
  | _ => b

/-- Run a trace of GL calls over a binding state. -/
def applyGLCalls (b : BindState) : List GLCall → BindState
  | [] => b
  | c :: rest => applyGLCalls (applyGLCall b c) rest

/-- Characterisation of the `BindGLTextures` loop tail from `index`: units
`index ≤ u < count` end up bound to slot `u`'s handle, all other units are
untouched. -/
theorem bindLoop_bound (s : SceneManagerState) (index : Nat) (b : BindState) (u : Nat) :
    (applyGLCalls b (bindGLTexturesLoop s index)).bound u =
      if index ≤ u ∧ u < s.loadedTextures then (s.textureIDs u).ID else b.bound u := by
  rw [bindGLTexturesLoop]
  split
  next hlt =>
    rw [show applyGLCalls b (GLCall.activeTexture index :: GLCall.bindTexture
        (s.textureIDs index).ID :: bindGLTexturesLoop s (index + 1)) =
      applyGLCalls (applyGLCall (applyGLCall b (GLCall.activeTexture index))
        (GLCall.bindTexture (s.textureIDs index).ID)) (bindGLTexturesLoop s (index + 1))
      from rfl]
    rw [bindLoop_bound s (index + 1)]
    by_cases hu : u = index
    · subst hu
      rw [if_neg (by omega), if_pos ⟨le_rfl, hlt⟩]
      simp [applyGLCall, Function.update]
    · by_cases hcond : index + 1 ≤ u ∧ u < s.loadedTextures
      · rw [if_pos hcond, if_pos ⟨by omega, hcond.2⟩]
      · rw [if_neg hcond, if_neg (by omega)]
        simp [applyGLCall, Function.update, hu]
  next =>
    rw [if_neg (by omega)]
    rfl
termination_by s.loadedTextures - index

/-- Characterisation of the active unit after the loop tail from `index`. -/
theorem bindLoop_active (s : SceneManagerState) (index : Nat) (b : BindState) :
    (applyGLCalls b (bindGLTexturesLoop s index)).activeUnit =
      if index < s.loadedTextures then s.loadedTextures - 1 else b.activeUnit := by
  rw [bindGLTexturesLoop]
  split
  next hlt =>
    rw [show applyGLCalls b (GLCall.activeTexture index :: GLCall.bindTexture
        (s.textureIDs index).ID :: bindGLTexturesLoop s (index + 1)) =
      applyGLCalls (applyGLCall (applyGLCall b (GLCall.activeTexture index))
        (GLCall.bindTexture (s.textureIDs index).ID)) (bindGLTexturesLoop s (index + 1))
      from rfl]
    rw [bindLoop_active s (index + 1)]
    by_cases hcond : index + 1 < s.loadedTextures
    · rw [if_pos hcond]
    · rw [if_neg hcond]
      have hx : (applyGLCall (applyGLCall b (GLCall.activeTexture index))
          (GLCall.bindTexture (s.textureIDs index).ID)).activeUnit = index := rfl
      rw [hx]
      omega
  next => rfl
termination_by s.loadedTextures - index

/-- **C9**: `BindGLTextures` writes no member of the manager, binds every
registered texture to the unit equal to its slot index, and is idempotent:
running its trace a second time from the state the first run produced
yields exactly the same unit-to-handle assignment. -/
theorem bindGLTextures_idempotent (s : SceneManagerState) (b : BindState) :
    (bindGLTextures s).1 = s ∧
      (∀ i, i < s.loadedTextures →
        (applyGLCalls b (bindGLTextures s).2).bound i = (s.textureIDs i).ID) ∧
      applyGLCalls (applyGLCalls b (bindGLTextures s).2) (bindGLTextures s).2 =
        applyGLCalls b (bindGLTextures s).2 := by
  refine ⟨rfl, ?_, ?_⟩
  · intro i hi
    rw [bindGLTextures]
    dsimp only
    rw [bindLoop_bound s 0 b i, if_pos ⟨Nat.zero_le i, hi⟩]
  · apply BindState.ext_iff
    · rw [bindGLTextures]
      dsimp only
      rw [bindLoop_active s 0 (applyGLCalls b (bindGLTexturesLoop s 0)),
        bindLoop_active s 0 b]
      by_cases h0 : 0 < s.loadedTextures
      · simp only [if_pos h0]
      · simp only [if_neg h0]
    · intro u
      rw [bindGLTextures]
      dsimp only
      rw [bindLoop_bound s 0 (applyGLCalls b (bindGLTexturesLoop s 0)) u,
        bindLoop_bound s 0 b u]
      by_cases hc : 0 ≤ u ∧ u < s.loadedTextures
      · simp only [if_pos hc]
      · simp only [if_neg hc]

/-- A concrete binding state: unit 0 active, nothing bound anywhere. -/
def emptyBindState : BindState := { activeUnit := 0, bound := fun _ => 0 }

/-- Witness for **C9** on the one-texture registry: state unchanged, unit 0
gets handle 1, and a second run of the trace changes nothing. -/
theorem bindGLTextures_idempotent_witness :
    (bindGLTextures oneTexState).1 = oneTexState ∧
      (applyGLCalls emptyBindState (bindGLTextures oneTexState).2).bound 0 = 1 ∧
      applyGLCalls (applyGLCalls emptyBindState (bindGLTextures oneTexState).2)
          (bindGLTextures oneTexState).2 =
        applyGLCalls emptyBindState (bindGLTextures oneTexState).2 := by
  obtain ⟨h1, h2, h3⟩ := bindGLTextures_idempotent oneTexState emptyBindState
  exact ⟨h1, by rw [h2 0 (by decide)]; rfl, h3⟩

end SceneMgr

namespace SceneMgr

/-! ### C10: behaviour of the uniform setters on a null shader manager -/

/-- A manager with a null `m_pShaderManager` and the three scene materials
defined. -/
def sNullWithMaterials : SceneManagerState :=
  { pShaderNull := true
    textureIDs := emptyMem
    loadedTextures := 0
    objectMaterials := sceneMaterials }

/-- The C10 claim rendered over the embedding: with a null shader manager,
every uniform-setting operation is a safe no-op performing no dereference —
including `SetShaderMaterial` when at least one material is defined and
the lookup reports success. -/
def uniformSettersNullSafeClaim : Prop :=
  ∀ s : SceneManagerState, s.pShaderNull = true →
    (∀ sc rx ry rz t, setTransformations s sc rx ry rz t = none) ∧
    (∀ r g b a, setShaderColor s r g b a = Except.ok []) ∧
    (∀ tag, setShaderTexture s tag = Except.ok []) ∧
    (∀ u v, setTextureUVScale s u v = Except.ok []) ∧
    (∀ tag m0, 0 < s.objectMaterials.length →
      (findMaterial s.objectMaterials tag m0).1 = true →
      setShaderMaterial s tag m0 ≠ Except.error ())

/-- **C10 counterexample**: `SetShaderMaterial` has no null guard.  With
the three scene materials defined, a null shader manager, and the tag
`"metal"` (lookup reports success), the call dereferences the null
pointer — `Except.error` — refuting the claim. -/
theorem uniformSetters_null_counterexample : ¬ uniformSettersNullSafeClaim := by
  intro h
  have hlen : 0 < sNullWithMaterials.objectMaterials.length := by decide
  have hfm : (findMaterial sceneMaterials "metal" localMaterial).1 = true := by
    rw [findMaterial, if_neg (by decide)]
  have hcall := (h sNullWithMaterials rfl).2.2.2.2 "metal" localMaterial hlen hfm
  apply hcall
  simp only [setShaderMaterial, sNullWithMaterials]
  rw [if_pos (by decide : 0 < sceneMaterials.length), if_pos hfm, if_pos trivial]

/-- **C10 amended**: `SetTransformations`, `SetShaderColor`,
`SetShaderTexture` and `SetTextureUVScale` all guard on the null shader
manager and are safe no-ops; `SetShaderMaterial` does not — whenever at
least one material is defined (`FindMaterial` then reports success for
every tag) it dereferences the null shader manager. -/
theorem uniformSetters_null_behavior (s : SceneManagerState)
    (h : s.pShaderNull = true) :
    (∀ sc rx ry rz t, setTransformations s sc rx ry rz t = none) ∧
    (∀ r g b a, setShaderColor s r g b a = Except.ok []) ∧
    (∀ tag, setShaderTexture s tag = Except.ok []) ∧
    (∀ u v, setTextureUVScale s u v = Except.ok []) ∧
    (∀ tag m0, 0 < s.objectMaterials.length →
      setShaderMaterial s tag m0 = Except.error ()) := by
  refine ⟨?_, ?_, ?_, ?_, ?_⟩
  · intro sc rx ry rz t
    simp [setTransformations, h]
  · intro r g b a
    simp [setShaderColor, h]
  · intro tag
    simp [setShaderTexture, h]
  · intro u v
    simp [setTextureUVScale, h]
  · intro tag m0 hlen
    have hfm : (findMaterial s.objectMaterials tag m0).1 = true := by
      rw [findMaterial, if_neg (by omega)]
    simp [setShaderMaterial, hlen, hfm, h]

/-- Witness for the amended **C10** on `sNullWithMaterials`. -/
theorem uniformSetters_null_behavior_witness :
    setTransformations sNullWithMaterials ⟨1, 1, 1⟩ 0 0 0 ⟨0, 0, 0⟩ = none ∧
      setShaderColor sNullWithMaterials 1 1 1 1 = Except.ok [] ∧
      setShaderMaterial sNullWithMaterials "metal" localMaterial = Except.error () := by
  have h := uniformSetters_null_behavior sNullWithMaterials rfl
  exact ⟨h.1 ⟨1, 1, 1⟩ 0 0 0 ⟨0, 0, 0⟩, h.2.1 1 1 1 1,
    h.2.2.2.2 "metal" localMaterial (by decide)⟩

end SceneMgr
